import Mathlib

/-!
Shallow embedding of the professor-rating aggregation and review-submission
flow of the course-catalog web client.

Sources:
  - src/src/components/CourseTable.tsx       (multi-field aggregator, badge, button)
  - src/src/components/ProfessorDetailsModal.tsx (read-only modal fetch/average)
  - src/unnamed/part_000                     (modal with review submission form)
  - src/unnamed/part_001                     (older single-field CourseTable variant)

Numbers are modelled as rationals; JS toFixed(1) followed by Number(...) is
modelled as rounding to the nearest multiple of 1/10 (ties away from zero for
the nonnegative ratings that occur here).
-/

namespace Beta6

/-- A review document in the reviews collection. The submission flow
(part_000, handleSubmitReview) writes professorId, userId, userName, rating,
comment and timestamp; the sub-rating fields clarity, fairness, punctuality
and wouldTakeAgain may be absent on records (CourseTable.tsx reads them with
a zero fallback), hence Option. -/
structure Review where
  professorId : String
  userId : String
  userName : String
  rating : ℚ
  clarity : Option ℚ
  fairness : Option ℚ
  punctuality : Option ℚ
  wouldTakeAgain : Option ℚ
  comment : String
  timestamp : String
deriving DecidableEq

/-- Number(x.toFixed(1)): round to the nearest multiple of 1/10. -/
def roundTo1 (x : ℚ) : ℚ := (round (10 * x) : ℤ) / 10

/-- The firestore equality query on the reviews collection:
query(collection(firestore, reviews), where(professorId, ==, p)). -/
def fetchReviewsFor (store : List Review) (professorId : String) : List Review :=
  store.filter (fun r => r.professorId == professorId)

/-- Accumulator of the reduce in fetchProfessorRatings (CourseTable.tsx 49-61). -/
structure RatingTotals where
  rating : ℚ
  clarity : ℚ
  fairness : ℚ
  punctuality : ℚ
  wouldTakeAgain : ℚ
deriving DecidableEq

/-- One step of the reduce: absent sub-rating fields are read as 0
(review.clarity falls back to 0, and so on; CourseTable.tsx 49-54). -/
def totalsStep (acc : RatingTotals) (review : Review) : RatingTotals :=
  { rating := acc.rating + review.rating
    clarity := acc.clarity + review.clarity.getD 0
    fairness := acc.fairness + review.fairness.getD 0
    punctuality := acc.punctuality + review.punctuality.getD 0
    wouldTakeAgain := acc.wouldTakeAgain + review.wouldTakeAgain.getD 0 }

/-- reviews.reduce(..., all-zero initial accumulator) of CourseTable.tsx 49-61. -/
def reduceTotals (reviews : List Review) : RatingTotals :=
  reviews.foldl totalsStep ⟨0, 0, 0, 0, 0⟩

/-- The derived per-professor summary (the value stored in the ratings map of
CourseTable.tsx, lines 64-70). -/
structure ProfessorRatingSummary where
  rating : ℚ
  clarity : ℚ
  fairness : ℚ
  punctuality : ℚ
  wouldTakeAgain : ℚ
deriving DecidableEq

/-- Loop body of fetchProfessorRatings (CourseTable.tsx 48-71) applied to the
fetched review list of one professor: when at least one review exists, each
field is summed, divided by the count and rounded to one decimal; otherwise no
summary is produced. -/
def aggregateReviews (reviews : List Review) : Option ProfessorRatingSummary :=
  if 0 < reviews.length then
    let totals := reduceTotals reviews
    let count : ℚ := (reviews.length : ℚ)
    some { rating := roundTo1 (totals.rating / count)
           clarity := roundTo1 (totals.clarity / count)
           fairness := roundTo1 (totals.fairness / count)
           punctuality := roundTo1 (totals.punctuality / count)
           wouldTakeAgain := roundTo1 (totals.wouldTakeAgain / count) }
  else none

/-- The try/catch around the fetch of one professor in fetchProfessorRatings
(CourseTable.tsx 39-74): on a fetch error the error is logged to the console
and no map entry is written. Returns the optional map entry and the console
log lines produced. -/
def fetchProfessorEntry (professor : String) (fetched : Except String (List Review)) :
    Option ProfessorRatingSummary × List String :=
  match fetched with
  | .ok reviews => (aggregateReviews reviews, [])
  | .error e =>
      (none, ["Error fetching ratings for professor: " ++ professor ++ " " ++ e])

/-- getRatingBadgeColor (CourseTable.tsx 93-97 and part_001 53-57). -/
def getRatingBadgeColor (rating : ℚ) : String :=
  if rating ≥ 4 then "bg-green-500"
  else if rating ≥ 3 then "bg-yellow-500"
  else "bg-red-500"

/-- rating.toFixed(1): decimal string with exactly one fractional digit. -/
def toFixed1String (x : ℚ) : String :=
  let n : ℤ := round (10 * x)
  if n < 0 then "-" ++ toString (-n / 10) ++ "." ++ toString (-n % 10)
  else toString (n / 10) ++ "." ++ toString (n % 10)

/-- Text of the rating button (CourseTable.tsx RatingButton, 99-126): absent
summary shows the no-rating label, otherwise the one-decimal rating over 5. -/
def ratingButtonLabel (ratings : Option ProfessorRatingSummary) : String :=
  match ratings with
  | none => "Sin calificación"
  | some s => toFixed1String s.rating ++ "/5"

/-- JS string interpolation of a number that is a multiple of 1/10: integers
print with no decimal point (0 prints as 0, not 0.0), otherwise one decimal. -/
def jsNumString (x : ℚ) : String :=
  if x.den = 1 then toString x.num else toFixed1String x

/-- fold of the single-field reduce acc + review.rating with initial 0
(ProfessorDetailsModal.tsx 49, part_000 50, part_001 39). -/
def sumRatings (reviews : List Review) : ℚ :=
  reviews.foldl (fun acc r => acc + r.rating) 0

/-- fetchProfessorRatings of the older CourseTable variant (part_001 38-41):
single-field average of review.rating, rounded to one decimal, and no map
entry when no reviews were fetched. -/
def fetchProfessorRatingsOld (reviews : List Review) : Option ℚ :=
  if 0 < reviews.length then
    some (roundTo1 (sumRatings reviews / (reviews.length : ℚ)))
  else none

/-- The modal component state the claims concern: the reviews list, the
averageRating display state, and the form fields newRating and newComment
(part_000 29-33; the transient loading and submitting flags always return to
false at the end of each handler and are not modelled). -/
structure ModalState where
  reviews : List Review
  averageRating : ℚ
  newRating : ℚ
  newComment : String
deriving DecidableEq

/-- Initial useState values of the modal (part_000 29-33,
ProfessorDetailsModal.tsx 28-30): empty reviews, averageRating 0,
newRating 5, empty comment. -/
def initialModalState : ModalState :=
  { reviews := [], averageRating := 0, newRating := 5, newComment := "" }

/-- Success path of fetchReviews applied to the fetched list
(ProfessorDetailsModal.tsx 44-51, part_000 45-52): setReviews always runs;
setAverageRating runs only when the list is nonempty, so for an empty fetch
the averageRating state keeps its previous value. -/
def applyFetchReviews (st : ModalState) (reviewsData : List Review) : ModalState :=
  { st with
    reviews := reviewsData
    averageRating :=
      if 0 < reviewsData.length then
        roundTo1 (sumRatings reviewsData / (reviewsData.length : ℚ))
      else st.averageRating }

/-- fetchReviews of the professor-details modal with its try/catch
(ProfessorDetailsModal.tsx 33-57, part_000 36-58): a fetch error is logged to
the console and the component state is left untouched. Returns the next state
and the console log lines produced. -/
def fetchReviews (st : ModalState) (fetched : Except String (List Review)) :
    ModalState × List String :=
  match fetched with
  | .ok reviewsData => (applyFetchReviews st reviewsData, [])
  | .error e => (st, ["Error fetching reviews: " ++ e])

/-- Header rating text of the modal: the raw interpolated averageRating number
followed by /5 (ProfessorDetailsModal.tsx 82-87, part_000 116-121). -/
def modalHeaderText (st : ModalState) : String :=
  jsNumString st.averageRating ++ "/5"

/-- The authenticated identity exposed by auth.currentUser. -/
structure User where
  uid : String
  displayName : Option String
deriving DecidableEq

/-- A toast notice shown to the user. -/
inductive Toast where
  | success (msg : String)
  | error (msg : String)
deriving DecidableEq

/-- The review record written by addDoc in handleSubmitReview (part_000
76-83): the professor identifier, the authenticated user identity (with the
anonymous fallback display name), the form fields, a client-generated
timestamp, and no sub-rating fields. -/
def newReview (professorId : String) (user : User) (st : ModalState) (now : String) : Review :=
  { professorId := professorId
    userId := user.uid
    userName := user.displayName.getD "Usuario Anónimo"
    rating := st.newRating
    clarity := none
    fairness := none
    punctuality := none
    wouldTakeAgain := none
    comment := st.newComment
    timestamp := now }

/-- Result of one run of handleSubmitReview: the remote store contents, the
modal component state, and the toasts shown. -/
structure SubmitResult where
  store : List Review
  state : ModalState
  toasts : List Toast
deriving DecidableEq

/-- handleSubmitReview (part_000 66-94). With no authenticated user: an error
toast, and nothing else happens. With a user and a successful write: the new
record is appended, a success toast is shown, the form is reset (comment
cleared, rating back to 5) and fetchReviews reruns against the updated store.
With a failed write (the catch branch): an error toast, and the store, the
form and the displayed state are all left as they were; no retry occurs. -/
def handleSubmitReview (currentUser : Option User) (writeOk : Bool)
    (professorId now : String) (store : List Review) (st : ModalState) : SubmitResult :=
  match currentUser with
  | none =>
      { store := store
        state := st
        toasts := [Toast.error "Debes iniciar sesión para dejar una reseña"] }
  | some user =>
      if writeOk then
        { store := store ++ [newReview professorId user st now]
          state := applyFetchReviews { st with newComment := "", newRating := 5 }
            (fetchReviewsFor (store ++ [newReview professorId user st now]) professorId)
          toasts := [Toast.success "¡Reseña enviada exitosamente!"] }
      else
        { store := store
          state := st
          toasts := [Toast.error "Error al enviar la reseña"] }

/-- Outcome of clicking the rate button (CourseTable.tsx handleRateClick
83-91): with no authenticated user the click is delegated to onRateSection and
the review modal never opens; otherwise the review modal opens. -/
inductive RateClickOutcome where
  | delegate (sectionId : String)
  | openReviewModal (sectionId professorId : String)
deriving DecidableEq

/-- handleRateClick (CourseTable.tsx 83-91). -/
def handleRateClick (currentUser : Option User) (sectionId professorId : String) :
    RateClickOutcome :=
  match currentUser with
  | none => .delegate sectionId
  | some _ => .openReviewModal sectionId professorId

/-- A concrete review with only the always-present fields, for evaluation. -/
def demoReview (r : ℚ) : Review :=
  { professorId := "Jane Doe"
    userId := "u1"
    userName := "User One"
    rating := r
    clarity := none
    fairness := none
    punctuality := none
    wouldTakeAgain := none
    comment := "ok"
    timestamp := "2024-01-01T00:00:00.000Z" }

/-- A concrete review that does carry sub-rating fields, for evaluation. -/
def demoReviewFull : Review :=
  { professorId := "Jane Doe"
    userId := "u2"
    userName := "User Two"
    rating := 5
    clarity := some 4
    fairness := some 5
    punctuality := some 3
    wouldTakeAgain := some 5
    comment := "good"
    timestamp := "2024-01-02T00:00:00.000Z" }

/- ### Helper lemmas -/

lemma foldl_totalsStep (reviews : List Review) (acc : RatingTotals) :
    (reviews.foldl totalsStep acc).rating
        = acc.rating + (reviews.map Review.rating).sum ∧
    (reviews.foldl totalsStep acc).clarity
        = acc.clarity + (reviews.map (fun r => r.clarity.getD 0)).sum ∧
    (reviews.foldl totalsStep acc).fairness
        = acc.fairness + (reviews.map (fun r => r.fairness.getD 0)).sum ∧
    (reviews.foldl totalsStep acc).punctuality
        = acc.punctuality + (reviews.map (fun r => r.punctuality.getD 0)).sum ∧
    (reviews.foldl totalsStep acc).wouldTakeAgain
        = acc.wouldTakeAgain + (reviews.map (fun r => r.wouldTakeAgain.getD 0)).sum := by
  induction reviews generalizing acc with
  | nil => simp
  | cons x xs ih =>
    obtain ⟨i1, i2, i3, i4, i5⟩ := ih (totalsStep acc x)
    simp only [List.foldl_cons, List.map_cons, List.sum_cons]
    refine ⟨?_, ?_, ?_, ?_, ?_⟩
    · rw [i1]; simp [totalsStep]; ring
    · rw [i2]; simp [totalsStep]; ring
    · rw [i3]; simp [totalsStep]; ring
    · rw [i4]; simp [totalsStep]; ring
    · rw [i5]; simp [totalsStep]; ring

lemma sumRatings_eq (reviews : List Review) :
    sumRatings reviews = (reviews.map Review.rating).sum := by
  have h : ∀ (l : List Review) (a : ℚ),
      l.foldl (fun acc r => acc + r.rating) a = a + (l.map Review.rating).sum := by
    intro l
    induction l with
    | nil => intro a; simp
    | cons x xs ih =>
      intro a
      simp only [List.foldl_cons, List.map_cons, List.sum_cons, ih]
      ring
  simpa [sumRatings] using h reviews 0

lemma aggregateReviews_pos (reviews : List Review) (h : 0 < reviews.length) :
    aggregateReviews reviews = some
      { rating := roundTo1 ((reviews.map Review.rating).sum / (reviews.length : ℚ))
        clarity := roundTo1
          ((reviews.map (fun r => r.clarity.getD 0)).sum / (reviews.length : ℚ))
        fairness := roundTo1
          ((reviews.map (fun r => r.fairness.getD 0)).sum / (reviews.length : ℚ))
        punctuality := roundTo1
          ((reviews.map (fun r => r.punctuality.getD 0)).sum / (reviews.length : ℚ))
        wouldTakeAgain := roundTo1
          ((reviews.map (fun r => r.wouldTakeAgain.getD 0)).sum / (reviews.length : ℚ)) } := by
  obtain ⟨h1, h2, h3, h4, h5⟩ := foldl_totalsStep reviews ⟨0, 0, 0, 0, 0⟩
  unfold aggregateReviews reduceTotals
  rw [if_pos h]
  simp [h1, h2, h3, h4, h5]

lemma badge_green_iff (r : ℚ) : getRatingBadgeColor r = "bg-green-500" ↔ 4 ≤ r := by
  unfold getRatingBadgeColor
  split_ifs with h1 h2
  · simp [h1]
  · constructor
    · intro hx; exact absurd hx (by decide)
    · intro hx; exact absurd hx h1
  · constructor
    · intro hx; exact absurd hx (by decide)
    · intro hx; exact absurd hx h1

lemma badge_yellow_iff (r : ℚ) :
    getRatingBadgeColor r = "bg-yellow-500" ↔ (3 ≤ r ∧ r < 4) := by
  unfold getRatingBadgeColor
  split_ifs with h1 h2
  · constructor
    · intro hx; exact absurd hx (by decide)
    · intro hx; exact absurd h1 (not_le.mpr hx.2)
  · exact ⟨fun _ => ⟨h2, not_le.mp h1⟩, fun _ => rfl⟩
  · constructor
    · intro hx; exact absurd hx (by decide)
    · intro hx; exact absurd hx.1 h2

lemma badge_red_iff (r : ℚ) : getRatingBadgeColor r = "bg-red-500" ↔ r < 3 := by
  unfold getRatingBadgeColor
  split_ifs with h1 h2
  · constructor
    · intro hx; exact absurd hx (by decide)
    · intro hx; exact absurd h1 (not_le.mpr (hx.trans (by norm_num)))
  · constructor
    · intro hx; exact absurd hx (by decide)
    · intro hx; exact absurd h2 (not_le.mpr hx)
  · exact ⟨fun _ => not_le.mp h2, fun _ => rfl⟩

lemma roundTo1_int (m : ℤ) : roundTo1 (m : ℚ) = (m : ℚ) := by
  unfold roundTo1
  rw [show (10 : ℚ) * m = ((10 * m : ℤ) : ℚ) by push_cast; ring, round_intCast]
  push_cast
  field_simp

lemma roundTo1_four : roundTo1 (4 : ℚ) = 4 := by
  simpa using roundTo1_int 4

lemma roundTo1_zero : roundTo1 (0 : ℚ) = 0 := by
  simpa using roundTo1_int 0

lemma round_ten_four : round ((10 : ℚ) * 4) = (40 : ℤ) := by
  rw [show (10 : ℚ) * 4 = ((40 : ℤ) : ℚ) by norm_num]
  exact round_intCast 40

lemma toFixed1String_four : toFixed1String (4 : ℚ) = "4.0" := by
  simp only [toFixed1String, round_ten_four]
  decide

/- ### Claims -/

/-- Claim C1: for every professor identifier, the fetched review set consists
exactly of records sharing that identifier, and on a fetched set of N records
the aggregator computes, per rated field, the sum divided by N rounded to one
decimal; for N = 0 no summary is produced (absent, not zero or an error). -/
theorem claim_C1_mean_per_field (store : List Review) (professorId : String) :
    (fetchReviewsFor store professorId).all
        (fun r => r.professorId == professorId) = true ∧
    (∀ reviews : List Review, reviews.length = 0 → aggregateReviews reviews = none) ∧
    (∀ reviews : List Review, 0 < reviews.length →
      aggregateReviews reviews = some
        { rating := roundTo1 ((reviews.map Review.rating).sum / (reviews.length : ℚ))
          clarity := roundTo1
            ((reviews.map (fun r => r.clarity.getD 0)).sum / (reviews.length : ℚ))
          fairness := roundTo1
            ((reviews.map (fun r => r.fairness.getD 0)).sum / (reviews.length : ℚ))
          punctuality := roundTo1
            ((reviews.map (fun r => r.punctuality.getD 0)).sum / (reviews.length : ℚ))
          wouldTakeAgain := roundTo1
            ((reviews.map (fun r => r.wouldTakeAgain.getD 0)).sum / (reviews.length : ℚ)) }) := by
  refine ⟨?_, ?_, ?_⟩
  · rw [List.all_eq_true]
    intro r hr
    unfold fetchReviewsFor at hr
    exact (List.mem_filter.mp hr).2
  · intro reviews h
    unfold aggregateReviews
    rw [if_neg]
    omega
  · intro reviews h
    exact aggregateReviews_pos reviews h

/-- Witness for C1 at concrete inputs: the empty set yields no summary, and a
two-review set yields the rounded per-field means. -/
theorem claim_C1_witness :
    aggregateReviews ([] : List Review) = none ∧
    aggregateReviews [demoReview 5, demoReview 4] = some
      { rating := roundTo1
          (([demoReview 5, demoReview 4].map Review.rating).sum
            / (([demoReview 5, demoReview 4] : List Review).length : ℚ))
        clarity := roundTo1
          (([demoReview 5, demoReview 4].map (fun r => r.clarity.getD 0)).sum
            / (([demoReview 5, demoReview 4] : List Review).length : ℚ))
        fairness := roundTo1
          (([demoReview 5, demoReview 4].map (fun r => r.fairness.getD 0)).sum
            / (([demoReview 5, demoReview 4] : List Review).length : ℚ))
        punctuality := roundTo1
          (([demoReview 5, demoReview 4].map (fun r => r.punctuality.getD 0)).sum
            / (([demoReview 5, demoReview 4] : List Review).length : ℚ))
        wouldTakeAgain := roundTo1
          (([demoReview 5, demoReview 4].map (fun r => r.wouldTakeAgain.getD 0)).sum
            / (([demoReview 5, demoReview 4] : List Review).length : ℚ)) } :=
  ⟨(claim_C1_mean_per_field [] "p").2.1 [] rfl,
   (claim_C1_mean_per_field [] "p").2.2 [demoReview 5, demoReview 4] (by decide)⟩

/-- Claim C2: a review submission attempted with no authenticated user
surfaces an error toast, performs no write (the store is unchanged, so no
record is persisted) and leaves the component state unchanged; likewise the
rate-button click without a user is delegated away and never opens the review
modal. -/
theorem claim_C2_unauthenticated_no_write (writeOk : Bool) (professorId now : String)
    (store : List Review) (st : ModalState) (sectionId : String) :
    handleSubmitReview none writeOk professorId now store st =
      { store := store
        state := st
        toasts := [Toast.error "Debes iniciar sesión para dejar una reseña"] } ∧
    handleRateClick none sectionId professorId = RateClickOutcome.delegate sectionId := by
  exact ⟨rfl, rfl⟩

/-- Claim C3: a successful authenticated submission appends exactly one new
review record carrying the client-generated timestamp, reruns the fetch (the
displayed reviews equal the re-fetched set), and the new record is in the
review set fetched for that professor identifier, so the next aggregation for
it sees the record and produces a summary. -/
theorem claim_C3_success_appends_and_refetches (user : User) (professorId now : String)
    (store : List Review) (st : ModalState) :
    (handleSubmitReview (some user) true professorId now store st).store
        = store ++ [newReview professorId user st now] ∧
    (newReview professorId user st now).timestamp = now ∧
    newReview professorId user st now ∈
      fetchReviewsFor (handleSubmitReview (some user) true professorId now store st).store
        professorId ∧
    (handleSubmitReview (some user) true professorId now store st).state.reviews
        = fetchReviewsFor
            (handleSubmitReview (some user) true professorId now store st).store
            professorId ∧
    (aggregateReviews
        (fetchReviewsFor (handleSubmitReview (some user) true professorId now store st).store
          professorId)).isSome = true ∧
    (handleSubmitReview (some user) true professorId now store st).toasts
        = [Toast.success "¡Reseña enviada exitosamente!"] := by
  have hstore : (handleSubmitReview (some user) true professorId now store st).store
      = store ++ [newReview professorId user st now] := by
    simp [handleSubmitReview]
  have hmem : newReview professorId user st now ∈
      fetchReviewsFor (store ++ [newReview professorId user st now]) professorId := by
    simp [fetchReviewsFor, List.mem_filter, newReview]
  have hlen : 0 <
      (fetchReviewsFor (store ++ [newReview professorId user st now]) professorId).length :=
    List.length_pos.mpr (List.ne_nil_of_mem hmem)
  refine ⟨hstore, rfl, ?_, ?_, ?_, ?_⟩
  · rw [hstore]; exact hmem
  · rw [hstore]; simp [handleSubmitReview, applyFetchReviews]
  · rw [hstore]
    unfold aggregateReviews
    rw [if_pos hlen]
    rfl
  · simp [handleSubmitReview]

/-- Claim C4: a sub-rating field absent on a record is read as zero when
summing, and the divisor of the mean of that field is the full review count N, so
the record still contributes to the mean (lowering it) instead of being
excluded. -/
theorem claim_C4_missing_subratings_default_zero (reviews : List Review)
    (h : 0 < reviews.length) :
    ∃ s, aggregateReviews reviews = some s ∧
      s.clarity = roundTo1
        ((reviews.map (fun r => r.clarity.getD 0)).sum / (reviews.length : ℚ)) ∧
      s.fairness = roundTo1
        ((reviews.map (fun r => r.fairness.getD 0)).sum / (reviews.length : ℚ)) ∧
      s.punctuality = roundTo1
        ((reviews.map (fun r => r.punctuality.getD 0)).sum / (reviews.length : ℚ)) ∧
      s.wouldTakeAgain = roundTo1
        ((reviews.map (fun r => r.wouldTakeAgain.getD 0)).sum / (reviews.length : ℚ)) :=
  ⟨_, aggregateReviews_pos reviews h, rfl, rfl, rfl, rfl⟩

/-- Witness for C4 on a concrete pair where one record has sub-ratings and the
other has none: both records count toward every divisor. -/
theorem claim_C4_witness :
    ∃ s, aggregateReviews [demoReviewFull, demoReview 4] = some s ∧
      s.clarity = roundTo1
        (([demoReviewFull, demoReview 4].map (fun r => r.clarity.getD 0)).sum
          / (([demoReviewFull, demoReview 4] : List Review).length : ℚ)) ∧
      s.fairness = roundTo1
        (([demoReviewFull, demoReview 4].map (fun r => r.fairness.getD 0)).sum
          / (([demoReviewFull, demoReview 4] : List Review).length : ℚ)) ∧
      s.punctuality = roundTo1
        (([demoReviewFull, demoReview 4].map (fun r => r.punctuality.getD 0)).sum
          / (([demoReviewFull, demoReview 4] : List Review).length : ℚ)) ∧
      s.wouldTakeAgain = roundTo1
        (([demoReviewFull, demoReview 4].map (fun r => r.wouldTakeAgain.getD 0)).sum
          / (([demoReviewFull, demoReview 4] : List Review).length : ℚ)) :=
  claim_C4_missing_subratings_default_zero [demoReviewFull, demoReview 4] (by decide)

/-- Claim C5: the badge classification is a pure function of the mean with
exactly three tiers: at least 4 is the positive tier, at least 3 but below 4
is the neutral tier, below 3 is the negative tier; in particular 4.0 is
positive, 3.99 is neutral and 2.99 is negative. -/
theorem claim_C5_badge_tiers (r : ℚ) :
    (getRatingBadgeColor r = "bg-green-500" ↔ 4 ≤ r) ∧
    (getRatingBadgeColor r = "bg-yellow-500" ↔ (3 ≤ r ∧ r < 4)) ∧
    (getRatingBadgeColor r = "bg-red-500" ↔ r < 3) ∧
    getRatingBadgeColor 4 = "bg-green-500" ∧
    getRatingBadgeColor (399 / 100) = "bg-yellow-500" ∧
    getRatingBadgeColor (299 / 100) = "bg-red-500" :=
  ⟨badge_green_iff r, badge_yellow_iff r, badge_red_iff r,
   (badge_green_iff 4).mpr (by norm_num),
   (badge_yellow_iff (399 / 100)).mpr (by norm_num),
   (badge_red_iff (299 / 100)).mpr (by norm_num)⟩

/-- Witness for C5 at the three boundary means. -/
theorem claim_C5_witness :
    getRatingBadgeColor 4 = "bg-green-500" ∧
    getRatingBadgeColor (399 / 100) = "bg-yellow-500" ∧
    getRatingBadgeColor (299 / 100) = "bg-red-500" :=
  ⟨((claim_C5_badge_tiers 4).1).mpr (by norm_num),
   ((claim_C5_badge_tiers (399 / 100)).2.1).mpr (by norm_num),
   ((claim_C5_badge_tiers (299 / 100)).2.2.1).mpr (by norm_num)⟩

/-- Claim C6: when the write fails, the user gets a transient error toast and
everything else is left exactly as it was: the store, the displayed reviews
and average, and the entered form values; the single resulting toast and the
unchanged store reflect that no retry happens. -/
theorem claim_C6_write_failure_state_unchanged (user : User) (professorId now : String)
    (store : List Review) (st : ModalState) :
    handleSubmitReview (some user) false professorId now store st =
      { store := store
        state := st
        toasts := [Toast.error "Error al enviar la reseña"] } := rfl

/-- Claim C7: a failed fetch is logged and its visible result equals the
zero-reviews result: in the table the map entry is absent (none) exactly as
for an empty fetch, and in the modal the component state after an error equals
the state after fetching an empty list, so no user-visible error state exists. -/
theorem claim_C7_fetch_error_like_empty (professor e : String) :
    (fetchProfessorEntry professor (Except.error e)).1
        = (fetchProfessorEntry professor (Except.ok [])).1 ∧
    (fetchProfessorEntry professor (Except.error e)).1 = none ∧
    (fetchProfessorEntry professor (Except.error e)).2.length = 1 ∧
    (fetchProfessorEntry professor (Except.ok [])).2.length = 0 ∧
    (fetchReviews initialModalState (Except.error e)).1
        = (fetchReviews initialModalState (Except.ok [])).1 ∧
    (fetchReviews initialModalState (Except.error e)).2.length = 1 :=
  ⟨rfl, rfl, rfl, rfl, rfl, rfl⟩

/-- Claim C8: a professor whose reviews have overall ratings 5, 4 and 3 gets
mean 4.0, the positive badge tier, and the button text 4.0/5; with zero
reviews the summary is absent and the button text is the no-rating label. -/
theorem claim_C8_examples :
    aggregateReviews [demoReview 5, demoReview 4, demoReview 3] = some
      { rating := 4, clarity := 0, fairness := 0, punctuality := 0, wouldTakeAgain := 0 } ∧
    getRatingBadgeColor 4 = "bg-green-500" ∧
    ratingButtonLabel (aggregateReviews [demoReview 5, demoReview 4, demoReview 3])
        = "4.0/5" ∧
    aggregateReviews ([] : List Review) = none ∧
    ratingButtonLabel (aggregateReviews ([] : List Review)) = "Sin calificación" := by
  have hagg : aggregateReviews [demoReview 5, demoReview 4, demoReview 3] = some
      { rating := 4, clarity := 0, fairness := 0, punctuality := 0, wouldTakeAgain := 0 } := by
    rw [aggregateReviews_pos _ (by decide)]
    simp only [List.map_cons, List.map_nil, List.sum_cons, List.sum_nil,
      List.length_cons, List.length_nil, demoReview, Option.getD_none]
    norm_num [roundTo1_four, roundTo1_zero]
  refine ⟨hagg, (badge_green_iff 4).mpr (by norm_num), ?_, rfl, rfl⟩
  rw [hagg]
  show toFixed1String (4 : ℚ) ++ "/5" = "4.0/5"
  rw [toFixed1String_four]
  rfl

/-- Claim C9: on every review list, the single-field average of the older
CourseTable variant (reduce over rating, divide by length, round to one
decimal, no entry when empty) equals the rating field of the summary of the newer
multi-field aggregator. -/
theorem claim_C9_old_variant_refines_new (reviews : List Review) :
    fetchProfessorRatingsOld reviews
        = Option.map ProfessorRatingSummary.rating (aggregateReviews reviews) := by
  rcases Nat.eq_zero_or_pos reviews.length with h | h
  · unfold fetchProfessorRatingsOld aggregateReviews
    rw [if_neg (by omega), if_neg (by omega)]
    rfl
  · rw [aggregateReviews_pos reviews h]
    unfold fetchProfessorRatingsOld
    rw [if_pos h]
    simp [sumRatings_eq]

/-- Claim C10: when the modal fetch returns zero reviews the averageRating
state is never assigned, so from the initial state it stays 0, the review
count is 0, and the header shows 0/5 instead of an absent-summary state. -/
theorem claim_C10_modal_zero_reviews_header :
    (∀ st : ModalState,
      ((fetchReviews st (Except.ok [])).1).averageRating = st.averageRating) ∧
    ((fetchReviews initialModalState (Except.ok [])).1).averageRating = 0 ∧
    ((fetchReviews initialModalState (Except.ok [])).1).reviews.length = 0 ∧
    modalHeaderText ((fetchReviews initialModalState (Except.ok [])).1) = "0/5" := by
  refine ⟨fun st => rfl, rfl, rfl, by decide⟩

end Beta6
